import Mathlib

/-!
Shallow embedding of the kanban-mvp server core (src/server.js).

The repository's `server.js` contains two concatenated variants of the
server.  Variant 1 (lines 1-735) and variant 2 (lines 736-1719) share the
role/transition policy code almost verbatim; they differ in

* the `Ongoing` transition rule (`fromStatuses` lacks `"Agent Inbox"` in
  variant 1 and contains it in variant 2),
* the claim endpoints (variant 2's `POST /api/cards/:id/claim` answers
  denials with 409 and a `current_owner` field; the `POST /api/tasks/:id/claim`
  endpoint of both variants answers with 403 and no `current_owner`),
* the parameter binding of the `UPDATE` statement in `PUT /api/tasks/:id`
  (variant 1 binds the owner_agent value to the `assignee` column and vice
  versa; variant 2 binds them in the correct order).

JavaScript `string | null | undefined` values are modelled as
`Option String` (`none` = null/undefined) and JS truthiness / the `||`
operator are modelled explicitly (`jsTruthy`, `jsSel`, `jsStr`).
Timestamps are a logical clock (`Nat`); every SQL `UPDATE ... updated_at =
datetime('now')` stamps the current clock value and advances the clock.
-/

namespace Kanban

/-! ## JavaScript value helpers -/

/-- JS truthiness of a `string | null | undefined` value:
null/undefined and the empty string are falsy. -/
def jsTruthy : Option String → Bool
  | none => false
  | some s => s ≠ ""

/-- JS `a || b` on nullable strings (kept nullable). -/
def jsSel (a b : Option String) : Option String :=
  if jsTruthy a then a else b

/-- JS `a || d` where the fallback `d` is a plain string. -/
def jsStr (a : Option String) (d : String) : String :=
  match a with
  | none => d
  | some s => if s = "" then d else s

/-- JS `String.prototype.toLowerCase` (ASCII, which covers the role strings). -/
def jsToLower (s : String) : String :=
  String.mk (s.data.map Char.toLower)

/-- Rendering of a nullable string inside a JS template literal:
`null` renders as the text "null". -/
def jsTemplate : Option String → String
  | none => "null"
  | some s => s

/-! ## Data model (tasks table, actors) -/

/-- A row of the `tasks` table (src/server.js, CREATE TABLE tasks). -/
structure Task where
  id : String
  title : String
  description : Option String
  assignee : Option String
  owner_agent : Option String
  status : String
  priority : String
  due_date : Option String
  branch : Option String
  repo : Option String
  created_at : Nat
  updated_at : Nat
deriving Repr, DecidableEq

/-- Per-request actor identity, as produced by `getAgentIdentity`. -/
structure AgentInfo where
  agentId : String
  agentRole : String
deriving Repr, DecidableEq

/-- The request headers that `getAgentIdentity` and the auth middlewares read. -/
structure Headers where
  x_owner_password : Option String
  x_api_key : Option String
  x_agent_id : Option String
  x_agent_role : Option String
deriving Repr, DecidableEq

/-- The `ROLES` constant map (src/server.js lines 161-165). -/
structure Roles where
  FOUNDER : String
  AGENT : String
  MEMBER : String

def ROLES : Roles :=
  { FOUNDER := "founder", AGENT := "agent", MEMBER := "member" }

/-- `getAgentIdentity(req)` (src/server.js lines 60-73, identical in both
variants): a matching owner password yields the synthetic founder identity;
otherwise `agentId = x-agent-id || x-owner-password || 'unknown'` and
`agentRole = x-agent-role || 'member'`. -/
def getAgentIdentity (ownerPassword : String) (h : Headers) : AgentInfo :=
  if jsTruthy h.x_owner_password ∧ h.x_owner_password = some ownerPassword then
    { agentId := "owner", agentRole := "founder" }
  else
    { agentId := jsStr h.x_agent_id (jsStr h.x_owner_password "unknown"),
      agentRole := jsStr h.x_agent_role "member" }

/-! ## Role & transition policy -/

/-- `isUnassigned(task)` (src/server.js lines 170-172):
`!task.owner_agent || task.owner_agent === '' || task.owner_agent === null`. -/
def isUnassigned (t : Task) : Bool :=
  !(jsTruthy t.owner_agent) || t.owner_agent == some "" || t.owner_agent == none

/-- Result of a policy check: `{allowed: true}` or `{allowed: false, reason}`. -/
inductive Decision where
  | allow
  | deny (reason : String)
deriving Repr, DecidableEq

/-- The `allowed` flag of a policy decision. -/
def Decision.allowedB : Decision → Bool
  | .allow => true
  | .deny _ => false

/-- `validateUnassignedAction(task, agentInfo, action)`
(src/server.js lines 175-190). -/
def validateUnassignedAction (t : Task) (a : AgentInfo) (action : String) : Decision :=
  let role := jsToLower a.agentRole
  if isUnassigned t then
    if role ≠ ROLES.FOUNDER then
      .deny ("Cannot " ++ action ++ " unassigned task. Only Founder can modify unassigned tasks.")
    else
      .allow
  else
    .allow

/-- `validateClaimAction(task, agentInfo)` (src/server.js lines 193-214):
role gate first, then the already-assigned check. -/
def validateClaimAction (t : Task) (a : AgentInfo) : Decision :=
  let role := jsToLower a.agentRole
  if role ≠ ROLES.FOUNDER ∧ role ≠ ROLES.AGENT then
    .deny "Only Founder or Agents can claim tasks"
  else if !(isUnassigned t) then
    .deny ("Task is already assigned to " ++ jsTemplate t.owner_agent)
  else
    .allow

/-- One entry of the `TRANSITION_RULES` map. -/
structure Rule where
  requiresOwnership : Bool
  requiresFounder : Bool
  fromStatuses : List String
  allowedRoles : List String
deriving Repr, DecidableEq

/-- `TRANSITION_RULES` of variant 1 (src/server.js lines 217-236):
the `Ongoing` rule's `fromStatuses` are only `To Do` and `Backlog`. -/
def TRANSITION_RULES_V1 (target : String) : Option Rule :=
  if target = "Ongoing" then
    some { requiresOwnership := true, requiresFounder := false,
           fromStatuses := ["To Do", "Backlog"],
           allowedRoles := [ROLES.FOUNDER, ROLES.AGENT, ROLES.MEMBER] }
  else if target = "Done" then
    some { requiresOwnership := false, requiresFounder := true,
           fromStatuses := ["Review", "Ongoing"],
           allowedRoles := [ROLES.FOUNDER] }
  else if target = "Review" then
    some { requiresOwnership := true, requiresFounder := false,
           fromStatuses := ["Ongoing"],
           allowedRoles := [ROLES.FOUNDER, ROLES.AGENT, ROLES.MEMBER] }
  else
    none

/-- `TRANSITION_RULES` of variant 2 (src/server.js lines 1103-1122):
identical to variant 1 except that `Ongoing.fromStatuses` also contains
`Agent Inbox`. -/
def TRANSITION_RULES_V2 (target : String) : Option Rule :=
  if target = "Ongoing" then
    some { requiresOwnership := true, requiresFounder := false,
           fromStatuses := ["To Do", "Backlog", "Agent Inbox"],
           allowedRoles := [ROLES.FOUNDER, ROLES.AGENT, ROLES.MEMBER] }
  else if target = "Done" then
    some { requiresOwnership := false, requiresFounder := true,
           fromStatuses := ["Review", "Ongoing"],
           allowedRoles := [ROLES.FOUNDER] }
  else if target = "Review" then
    some { requiresOwnership := true, requiresFounder := false,
           fromStatuses := ["Ongoing"],
           allowedRoles := [ROLES.FOUNDER, ROLES.AGENT, ROLES.MEMBER] }
  else
    none

/-- `validateTransition(task, newStatus, agentInfo)`
(src/server.js lines 263-312 and 1126-1175), parametrised by which
`TRANSITION_RULES` map is in scope. The checks run in source order:
unassigned gate, rule lookup (no rule ⇒ allow), `fromStatuses` membership,
`requiresFounder`, `requiresOwnership`. -/
def validateTransition (rules : String → Option Rule) (t : Task) (newStatus : String)
    (a : AgentInfo) : Decision :=
  match validateUnassignedAction t a "move or change status" with
  | .deny r => .deny r
  | .allow =>
    match rules newStatus with
    | none => .allow
    | some rule =>
      if ¬ rule.fromStatuses.contains t.status then
        .deny ("Cannot transition from \"" ++ t.status ++ "\" to \"" ++ newStatus ++
          "\". Valid from: " ++ String.intercalate ", " rule.fromStatuses)
      else
        let actorRole := jsToLower a.agentRole
        if rule.requiresFounder ∧ actorRole ≠ ROLES.FOUNDER then
          .deny "Only Founder can complete this transition"
        else if rule.requiresOwnership ∧
            ¬(t.owner_agent = some a.agentId ∨ t.assignee = some a.agentId) ∧
            actorRole ≠ ROLES.FOUNDER then
          .deny ("Only the assigned agent (" ++ jsTemplate (jsSel t.owner_agent t.assignee) ++
            ") can move to \"" ++ newStatus ++ "\"")
        else
          .allow

/-! ## Activity logging -/

/-- The `transitionInfo` argument of `logActivity`; every field may be
absent (JS `undefined`), matching the call sites that pass `{}`. -/
structure TransitionInfo where
  fromStatus : Option String
  toStatus : Option String
  branch : Option String
  repo : Option String
  allowed : Option Bool
  denialReason : Option String
deriving Repr, DecidableEq

/-- The empty `transitionInfo = {}` default. -/
def emptyTransitionInfo : TransitionInfo :=
  { fromStatus := none, toStatus := none, branch := none, repo := none,
    allowed := none, denialReason := none }

/-- A row of the `activity_log` table as inserted by `logActivity`. -/
structure LogEntry where
  action : String
  task_id : String
  task_title : String
  details : String
  agent_id : String
  agent_role : String
  from_status : Option String
  to_status : Option String
  branch : Option String
  repo : Option String
  transition_allowed : Nat
  denial_reason : Option String
deriving Repr, DecidableEq

/-- `logActivity(action, taskId, taskTitle, details, agentInfo, transitionInfo)`
(src/server.js lines 240-251 and 974-986): appends one row; the INSERT binds
`transition_allowed = allowed ? 1 : 0` (an absent `allowed` is falsy, hence 0)
and `denial_reason = denialReason || null`. -/
def logActivity (action taskId taskTitle details : String) (a : AgentInfo)
    (ti : TransitionInfo) (log : List LogEntry) : List LogEntry :=
  log ++ [{ action := action, task_id := taskId, task_title := taskTitle,
            details := details, agent_id := a.agentId, agent_role := a.agentRole,
            from_status := ti.fromStatus, to_status := ti.toStatus,
            branch := ti.branch, repo := ti.repo,
            transition_allowed := if ti.allowed = some true then 1 else 0,
            denial_reason := jsSel ti.denialReason none }]

/-- `logTransitionAttempt(taskId, taskTitle, fromStatus, toStatus, agentInfo,
allowed, denialReason, branch, repo)` (src/server.js lines 253-259 and
988-994). -/
def logTransitionAttempt (taskId taskTitle fromStatus toStatus : String)
    (a : AgentInfo) (allowed : Bool) (denialReason : Option String)
    (branch repo : Option String) (log : List LogEntry) : List LogEntry :=
  logActivity "transition" taskId taskTitle
    ("Status transition: " ++ fromStatus ++ " → " ++ toStatus) a
    { fromStatus := some fromStatus, toStatus := some toStatus,
      branch := branch, repo := repo, allowed := some allowed,
      denialReason := denialReason } log

/-! ## Server state

The mutating endpoints touch a single card row looked up by id; the state is
that row (`none` = no such id), the activity log, and a logical clock used to
stamp `updated_at`. -/

structure ServerState where
  card : Option Task
  log : List LogEntry
  nowTime : Nat
deriving Repr, DecidableEq

/-! ## POST /api/cards/:id/transition -/

inductive TransitionResp where
  | badRequest (error : String)
  | notFound (error : String)
  | denied (reason : String) (from_status : String) (to_status : String)
  | ok (id : String) (from_status : String) (to_status : String)
deriving Repr, DecidableEq

/-- `POST /api/cards/:id/transition` (src/server.js lines 420-474 and
1342-1412; both variants run the same logic over their own
`TRANSITION_RULES`): 400 when `status` is falsy, 404 when the card is
missing, 403 plus a denial log row when the policy denies, otherwise the
status `UPDATE`, a success log row and a 200 body. -/
def transitionHandler (rules : String → Option Rule) (s : ServerState)
    (newStatus : Option String) (a : AgentInfo) : ServerState × TransitionResp :=
  if ¬ jsTruthy newStatus then
    (s, .badRequest "New status is required")
  else
    let ns := newStatus.getD ""
    match s.card with
    | none => (s, .notFound "Task not found")
    | some task =>
      match validateTransition rules task ns a with
      | .deny reason =>
        ({ s with log := logTransitionAttempt task.id task.title task.status ns a
                   false (some reason) task.branch task.repo s.log },
         .denied reason task.status ns)
      | .allow =>
        ({ card := some { task with status := ns, updated_at := s.nowTime },
           log := logTransitionAttempt task.id task.title task.status ns a
                    true none task.branch task.repo s.log,
           nowTime := s.nowTime + 1 },
         .ok task.id task.status ns)

/-! ## Claim endpoints -/

inductive ClaimResp where
  | notFound (error : String)
  | conflict (reason : String) (current_owner : Option String)
  | forbidden (reason : String)
  | ok (id : String) (owner_agent : String)
deriving Repr, DecidableEq

/-- `POST /api/cards/:id/claim` (variant 2, src/server.js lines 1281-1339)
run without interleaving: 404 for a missing card; on a denied
`validateClaimAction` a `claim_denied` log row and a 409 body carrying
`current_owner: task.owner_agent`; otherwise the `owner_agent` `UPDATE`, a
`claim` log row and a 200 body `{id, owner_agent}`. -/
def claimCardsHandler (s : ServerState) (a : AgentInfo) : ServerState × ClaimResp :=
  match s.card with
  | none => (s, .notFound "Task not found")
  | some task =>
    match validateClaimAction task a with
    | .deny reason =>
      ({ s with log := logActivity "claim_denied" task.id task.title
                 ("Claim attempt by " ++ a.agentId ++ " denied: " ++ reason) a
                 emptyTransitionInfo s.log },
       .conflict reason task.owner_agent)
    | .allow =>
      ({ card := some { task with owner_agent := some a.agentId, updated_at := s.nowTime },
         log := logActivity "claim" task.id task.title
                  ("Task claimed by " ++ a.agentId) a emptyTransitionInfo s.log,
         nowTime := s.nowTime + 1 },
       .ok task.id a.agentId)

/-- `POST /api/tasks/:id/claim` (src/server.js lines 521-556 and 1464-1501):
same policy, but a denial is a 403 `{error, reason}` with no `current_owner`. -/
def claimTasksHandler (s : ServerState) (a : AgentInfo) : ServerState × ClaimResp :=
  match s.card with
  | none => (s, .notFound "Task not found")
  | some task =>
    match validateClaimAction task a with
    | .deny reason =>
      ({ s with log := logActivity "claim_denied" task.id task.title
                 ("Claim attempt by " ++ a.agentId ++ " denied: " ++ reason) a
                 emptyTransitionInfo s.log },
       .forbidden reason)
    | .allow =>
      ({ card := some { task with owner_agent := some a.agentId, updated_at := s.nowTime },
         log := logActivity "claim" task.id task.title
                  ("Task claimed by " ++ a.agentId) a emptyTransitionInfo s.log,
         nowTime := s.nowTime + 1 },
       .ok task.id a.agentId)

/-! ## Interleaved claims

`POST /api/cards/:id/claim` performs two separate store operations with an
`await` between them: the `SELECT` (after which `validateClaimAction` runs
synchronously on the snapshot) and the unconditional
`UPDATE tasks SET owner_agent = $1 WHERE id = $2`. Between the two, the
event loop may run any other request. Under PostgreSQL the pair is wrapped
in a default-isolation (READ COMMITTED) transaction, whose `UPDATE` does not
re-check `owner_agent`; under SQLite there is no transaction at all. A
request is therefore modelled as two atomic steps. -/

inductive ClaimPending where
  | start
  | midWrite (snapshot : Task)
  | finished (resp : ClaimResp)
deriving Repr, DecidableEq

/-- One atomic step of a pending `POST /api/cards/:id/claim` request:
from `start`, the `SELECT` + synchronous validation (finishing immediately
on 404 or denial); from `midWrite`, the `UPDATE` + `claim` log + 200. -/
def claimStep (a : AgentInfo) (s : ServerState) (p : ClaimPending) :
    ServerState × ClaimPending :=
  match p with
  | .start =>
    match s.card with
    | none => (s, .finished (.notFound "Task not found"))
    | some task =>
      match validateClaimAction task a with
      | .deny reason =>
        ({ s with log := logActivity "claim_denied" task.id task.title
                   ("Claim attempt by " ++ a.agentId ++ " denied: " ++ reason) a
                   emptyTransitionInfo s.log },
         .finished (.conflict reason task.owner_agent))
      | .allow => (s, .midWrite task)
  | .midWrite snapshot =>
    let card' :=
      match s.card with
      | none => none
      | some task => some { task with owner_agent := some a.agentId, updated_at := s.nowTime }
    ({ card := card',
       log := logActivity "claim" snapshot.id snapshot.title
                ("Task claimed by " ++ a.agentId) a emptyTransitionInfo s.log,
       nowTime := s.nowTime + 1 },
     .finished (.ok snapshot.id a.agentId))
  | .finished r => (s, .finished r)

/-- Scheduler step for two concurrent claim requests: `true` advances
request 1 (actor `a1`), `false` advances request 2 (actor `a2`). -/
def twoClaimsStep (a1 a2 : AgentInfo) (acc : ServerState × ClaimPending × ClaimPending)
    (which : Bool) : ServerState × ClaimPending × ClaimPending :=
  match acc with
  | (s, p1, p2) =>
    if which then
      let r := claimStep a1 s p1
      (r.1, r.2, p2)
    else
      let r := claimStep a2 s p2
      (r.1, p1, r.2)

/-- Run two concurrent `POST /api/cards/:id/claim` requests under a given
interleaving schedule. -/
def runTwoClaims (a1 a2 : AgentInfo) (s0 : ServerState) (sched : List Bool) :
    ServerState × ClaimPending × ClaimPending :=
  sched.foldl (twoClaimsStep a1 a2) (s0, .start, .start)

/-! ## PUT /api/tasks/:id -/

/-- The JSON body destructured by `PUT /api/tasks/:id`; `none` = field absent. -/
structure PutBody where
  title : Option String
  description : Option String
  assignee : Option String
  priority : Option String
  status : Option String
  due_date : Option String
  owner_agent : Option String
  branch : Option String
  repo : Option String
deriving Repr, DecidableEq

/-- A PUT body with every field absent. -/
def emptyPutBody : PutBody :=
  { title := none, description := none, assignee := none, priority := none,
    status := none, due_date := none, owner_agent := none, branch := none,
    repo := none }

inductive PutResp where
  | notFound (error : String)
  | assignmentDenied (reason : String)
  | transitionDenied (reason : String) (from_status : String) (to_status : String)
  | ok
deriving Repr, DecidableEq

/-- The guard of the owner_agent assignment gate in `PUT /api/tasks/:id`
(src/server.js lines 569-578 and 1517-1525):
`owner_agent !== undefined && owner_agent !== task.owner_agent` and then
`isUnassigned(task) && role !== FOUNDER && role !== AGENT`. -/
def putAssignmentDenied (body : PutBody) (t : Task) (a : AgentInfo) : Bool :=
  match body.owner_agent with
  | none => false
  | some v =>
    if t.owner_agent = some v then false
    else
      let role := jsToLower a.agentRole
      isUnassigned t ∧ role ≠ ROLES.FOUNDER ∧ role ≠ ROLES.AGENT

/-- The `changes` array assembled before the UPDATE (src/server.js lines
614-622 and 1559-1567), identical in both variants. -/
def putChanges (body : PutBody) (t : Task) : List String :=
  (match body.title with
   | some v => if v ≠ t.title then ["title: \"" ++ t.title ++ "\" → \"" ++ v ++ "\""] else []
   | none => []) ++
  (match body.assignee with
   | some v => if v ≠ jsStr t.assignee "" then
       ["assignee: " ++ jsTemplate (jsSel t.assignee (some "none")) ++ " → " ++
        (if v = "" then "none" else v)] else []
   | none => []) ++
  (match body.owner_agent with
   | some v => if v ≠ jsStr t.owner_agent "" then
       ["owner_agent: " ++ jsTemplate (jsSel t.owner_agent (some "none")) ++ " → " ++
        (if v = "" then "none" else v)] else []
   | none => []) ++
  (match body.priority with
   | some v => if v ≠ t.priority then ["priority: " ++ t.priority ++ " → " ++ v] else []
   | none => []) ++
  (match body.status with
   | some v => if v ≠ t.status then ["status: " ++ t.status ++ " → " ++ v] else []
   | none => []) ++
  (match body.due_date with
   | some v => if ¬ (t.due_date = some v) then
       ["due_date: " ++ jsTemplate (jsSel t.due_date (some "none")) ++ " → " ++
        (if v = "" then "none" else v)] else []
   | none => []) ++
  (match body.branch with
   | some v => if ¬ (t.branch = some v) then
       ["branch: " ++ jsTemplate (jsSel t.branch (some "none")) ++ " → " ++
        (if v = "" then "none" else v)] else []
   | none => []) ++
  (match body.repo with
   | some v => if ¬ (t.repo = some v) then
       ["repo: " ++ jsTemplate (jsSel t.repo (some "none")) ++ " → " ++
        (if v = "" then "none" else v)] else []
   | none => [])

/-- The row stored by variant 1's UPDATE (src/server.js lines 624-635).
The SQL column order is `title, description, assignee, owner_agent, ...` but
the bound parameter order is `title, description, owner_agent-chain,
assignee-chain, ...`: the `assignee` column receives
`owner_agent || task.owner_agent || ''` and the `owner_agent` column
receives `assignee || task.assignee || ''`. -/
def putStoredV1 (body : PutBody) (t : Task) (stamp : Nat) : Task :=
  { t with
    title := jsStr body.title t.title,
    description := jsSel body.description t.description,
    assignee := some ((jsSel body.owner_agent t.owner_agent).getD ""),
    owner_agent := some ((jsSel body.assignee t.assignee).getD ""),
    priority := jsStr body.priority t.priority,
    status := jsStr body.status t.status,
    due_date := jsSel body.due_date t.due_date,
    branch := jsSel body.branch t.branch,
    repo := jsSel body.repo t.repo,
    updated_at := stamp }

/-- The row stored by variant 2's UPDATE (src/server.js lines 1569-1581):
columns `title, description, owner_agent, assignee, ...` bound in the same
order as the parameters, so the two ownership fields land correctly. -/
def putStoredV2 (body : PutBody) (t : Task) (stamp : Nat) : Task :=
  { t with
    title := jsStr body.title t.title,
    description := jsSel body.description t.description,
    owner_agent := some ((jsSel body.owner_agent t.owner_agent).getD ""),
    assignee := some ((jsSel body.assignee t.assignee).getD ""),
    priority := jsStr body.priority t.priority,
    status := jsStr body.status t.status,
    due_date := jsSel body.due_date t.due_date,
    branch := jsSel body.branch t.branch,
    repo := jsSel body.repo t.repo,
    updated_at := stamp }

/-- `PUT /api/tasks/:id` (src/server.js lines 559-661 for variant 1 and
1504-1604 for variant 2), parametrised by the variant's transition rules and
by its computation of the stored row. Flow: 404 for a missing card; the
owner_agent assignment gate (403, no log row); when the body carries a
status different from the card's, `validateTransition` (on deny, a denial
log row and 403; on allow, a success transition log row); then the UPDATE
and one `update` log row with `allowed: true`. -/
def putHandlerWith (rules : String → Option Rule)
    (stored : PutBody → Task → Nat → Task) (s : ServerState) (body : PutBody)
    (a : AgentInfo) : ServerState × PutResp :=
  match s.card with
  | none => (s, .notFound "Task not found")
  | some task =>
    if putAssignmentDenied body task a then
      (s, .assignmentDenied "Only Founder or Agents can assign unassigned tasks")
    else
      let statusChanged :=
        match body.status with
        | none => false
        | some st => st ≠ task.status
      let commit : List LogEntry → ServerState × PutResp := fun log1 =>
        ({ card := some (stored body task s.nowTime),
           log := logActivity "update" task.id task.title
                    ("Updated: " ++ String.intercalate ", " (putChanges body task)) a
                    { fromStatus := some task.status,
                      toStatus := some (jsStr body.status task.status),
                      branch := none, repo := none, allowed := some true,
                      denialReason := none } log1,
           nowTime := s.nowTime + 1 },
         .ok)
      if statusChanged then
        let st := body.status.getD ""
        match validateTransition rules task st a with
        | .deny reason =>
          ({ s with log := logTransitionAttempt task.id task.title task.status st a
                     false (some reason) (jsSel body.branch task.branch)
                     (jsSel body.repo task.repo) s.log },
           .transitionDenied reason task.status st)
        | .allow =>
          commit (logTransitionAttempt task.id task.title task.status st a
                    true none (jsSel body.branch task.branch)
                    (jsSel body.repo task.repo) s.log)
      else
        commit s.log

/-- Variant 1's `PUT /api/tasks/:id` (swapped assignee/owner_agent binding). -/
def putHandlerV1 (s : ServerState) (body : PutBody) (a : AgentInfo) :
    ServerState × PutResp :=
  putHandlerWith TRANSITION_RULES_V1 putStoredV1 s body a

/-- Variant 2's `PUT /api/tasks/:id` (correct binding). -/
def putHandlerV2 (s : ServerState) (body : PutBody) (a : AgentInfo) :
    ServerState × PutResp :=
  putHandlerWith TRANSITION_RULES_V2 putStoredV2 s body a

/-! ## Helper lemmas -/

theorem isUnassigned_iff (t : Task) :
    isUnassigned t = true ↔ t.owner_agent = none ∨ t.owner_agent = some "" := by
  cases h : t.owner_agent with
  | none => simp [isUnassigned, jsTruthy, h]
  | some s => by_cases hs : s = "" <;> simp [isUnassigned, jsTruthy, h, hs]

theorem isUnassigned_false_iff (t : Task) :
    isUnassigned t = false ↔ ∃ s, t.owner_agent = some s ∧ s ≠ "" := by
  rw [← Bool.not_eq_true, isUnassigned_iff]
  cases h : t.owner_agent with
  | none => simp
  | some s => simp

theorem append_ne_empty_left (s t : String) (h : s.data ≠ []) : s ++ t ≠ "" := by
  intro he
  apply h
  have hd := congrArg String.data he
  rw [String.data_append] at hd
  have h2 : s.data ++ t.data = [] := hd
  exact (List.append_eq_nil.mp h2).1

theorem allowedB_false_iff (d : Decision) :
    d.allowedB = false ↔ ∃ r, d = .deny r := by
  cases d <;> simp [Decision.allowedB]

theorem validateUnassignedAction_founder (t : Task) (a : AgentInfo) (act : String)
    (h : jsToLower a.agentRole = "founder") :
    validateUnassignedAction t a act = .allow := by
  simp [validateUnassignedAction, h, ROLES]

theorem validateUnassignedAction_assigned (t : Task) (a : AgentInfo) (act : String)
    (h : isUnassigned t = false) :
    validateUnassignedAction t a act = .allow := by
  simp [validateUnassignedAction, h]

theorem validateUnassignedAction_deny (t : Task) (a : AgentInfo) (act : String)
    (hu : isUnassigned t = true) (h : jsToLower a.agentRole ≠ "founder") :
    validateUnassignedAction t a act =
      .deny ("Cannot " ++ act ++ " unassigned task. Only Founder can modify unassigned tasks.") := by
  simp [validateUnassignedAction, hu, h, ROLES]

theorem bool_eq_false_of_not_true {b : Bool} (h : ¬ b = true) : b = false := by
  cases b <;> simp_all

theorem rules_done_eq (rules : String → Option Rule)
    (hrules : rules = TRANSITION_RULES_V1 ∨ rules = TRANSITION_RULES_V2) :
    rules "Done" = some ⟨false, true, ["Review", "Ongoing"], [ROLES.FOUNDER]⟩ := by
  rcases hrules with h | h <;> subst h <;> rfl

/-- With a non-founder actor, any transition into `Done` is denied:
either by the unassigned gate or by `requiresFounder`. -/
theorem validateTransition_done_nonfounder (rules : String → Option Rule)
    (hrules : rules = TRANSITION_RULES_V1 ∨ rules = TRANSITION_RULES_V2)
    (t : Task) (a : AgentInfo) (hrole : jsToLower a.agentRole ≠ "founder") :
    (validateTransition rules t "Done" a).allowedB = false := by
  by_cases hu : isUnassigned t = true
  · rw [validateTransition, validateUnassignedAction_deny t a _ hu hrole]
    rfl
  · rw [validateTransition,
      validateUnassignedAction_assigned t a _ (bool_eq_false_of_not_true hu),
      rules_done_eq rules hrules]
    by_cases hf : (["Review", "Ongoing"] : List String).contains t.status = true
    · simp [hf, ROLES, hrole, Decision.allowedB]
      by_cases hc : ¬t.status = "Review" ∧ ¬t.status = "Ongoing" <;> simp [hc]
    · have hf2 : ¬(t.status = "Review") ∧ ¬(t.status = "Ongoing") := by simpa using hf
      simp [hf2.1, hf2.2, Decision.allowedB]

/-- A founder's transition into `Done` from `Review` or `Ongoing` is allowed. -/
theorem validateTransition_done_founder (rules : String → Option Rule)
    (hrules : rules = TRANSITION_RULES_V1 ∨ rules = TRANSITION_RULES_V2)
    (t : Task) (a : AgentInfo)
    (hst : t.status = "Review" ∨ t.status = "Ongoing")
    (hrole : jsToLower a.agentRole = "founder") :
    validateTransition rules t "Done" a = .allow := by
  rw [validateTransition, validateUnassignedAction_founder t a _ hrole,
    rules_done_eq rules hrules]
  rcases hst with h | h <;> simp [h, ROLES, hrole]

theorem transitionHandler_deny (rules : String → Option Rule) (s : ServerState)
    (t : Task) (a : AgentInfo) (ns : Option String) (r : String)
    (hns : jsTruthy ns = true) (hc : s.card = some t)
    (hv : validateTransition rules t (ns.getD "") a = .deny r) :
    transitionHandler rules s ns a =
      ({ s with log := logTransitionAttempt t.id t.title t.status (ns.getD "") a
                  false (some r) t.branch t.repo s.log },
       .denied r t.status (ns.getD "")) := by
  simp [transitionHandler, hns, hc, hv]

theorem transitionHandler_allow (rules : String → Option Rule) (s : ServerState)
    (t : Task) (a : AgentInfo) (ns : Option String)
    (hns : jsTruthy ns = true) (hc : s.card = some t)
    (hv : validateTransition rules t (ns.getD "") a = .allow) :
    transitionHandler rules s ns a =
      ({ card := some { t with status := ns.getD "", updated_at := s.nowTime },
         log := logTransitionAttempt t.id t.title t.status (ns.getD "") a
                  true none t.branch t.repo s.log,
         nowTime := s.nowTime + 1 },
       .ok t.id t.status (ns.getD "")) := by
  simp [transitionHandler, hns, hc, hv]

/-! ## Concrete fixtures used by counterexamples and witness instances -/

/-- A sample card with the given owner and status. -/
def mkTask (owner : Option String) (status : String) : Task :=
  { id := "c1", title := "X", description := none, assignee := none,
    owner_agent := owner, status := status, priority := "High",
    due_date := none, branch := none, repo := none, created_at := 0, updated_at := 0 }

/-- A sample single-card server state (empty log, clock at 5). -/
def mkState (owner : Option String) (status : String) : ServerState :=
  { card := some (mkTask owner status), log := [], nowTime := 5 }

def agentA1 : AgentInfo := { agentId := "a1", agentRole := "agent" }
def agentA2 : AgentInfo := { agentId := "a2", agentRole := "agent" }
def memberM1 : AgentInfo := { agentId := "m1", agentRole := "member" }
def founderOwner : AgentInfo := { agentId := "owner", agentRole := "founder" }

/-! ## Claims -/

/-- C1: the claim endpoint is advertised as atomic first-claim-wins, but its
`SELECT` and `UPDATE` are separate awaited store operations (and the
PostgreSQL transaction runs at default isolation with an unconditional
`UPDATE`): under the interleaving read1–read2–write1–write2 on an unassigned
card, both concurrent claim requests finish with 200 and the final
`owner_agent` is the second writer, contradicting the claimed exactly-one-
success outcome; under a serial schedule the loser does get the 409
conflict, showing the failure is interleaving-dependent. -/
theorem c1_concurrent_claims_can_both_succeed :
    (runTwoClaims agentA1 agentA2 (mkState none "To Do") [true, false, true, false]).2.1 =
      ClaimPending.finished (ClaimResp.ok "c1" "a1") ∧
    (runTwoClaims agentA1 agentA2 (mkState none "To Do") [true, false, true, false]).2.2 =
      ClaimPending.finished (ClaimResp.ok "c1" "a2") ∧
    ((runTwoClaims agentA1 agentA2 (mkState none "To Do") [true, false, true, false]).1.card.map
        Task.owner_agent = some (some "a2")) ∧
    (runTwoClaims agentA1 agentA2 (mkState none "To Do") [true, true, false]).2.2 =
      ClaimPending.finished
        (ClaimResp.conflict "Task is already assigned to a1" (some "a1")) := by
  decide

/-- C2: for a card in `Review` or `Ongoing`, a transition to `Done` by an
actor with role `agent` or `member` is denied (403 shape, card untouched)
regardless of ownership, and the identical request by a `founder` succeeds
and sets the card's status to `Done` — in both server variants. -/
theorem c2_founder_only_closure
    (rules : String → Option Rule)
    (hrules : rules = TRANSITION_RULES_V1 ∨ rules = TRANSITION_RULES_V2)
    (s : ServerState) (t : Task) (a : AgentInfo)
    (hc : s.card = some t)
    (hst : t.status = "Review" ∨ t.status = "Ongoing") :
    ((a.agentRole = "agent" ∨ a.agentRole = "member") →
      ∃ r, (transitionHandler rules s (some "Done") a).2 =
          TransitionResp.denied r t.status "Done" ∧
        (transitionHandler rules s (some "Done") a).1.card = s.card) ∧
    (a.agentRole = "founder" →
      (transitionHandler rules s (some "Done") a).2 =
        TransitionResp.ok t.id t.status "Done" ∧
      (transitionHandler rules s (some "Done") a).1.card =
        some { t with status := "Done", updated_at := s.nowTime }) := by
  constructor
  · intro hrole
    have hlow : jsToLower a.agentRole ≠ "founder" := by
      rcases hrole with h | h <;> rw [h] <;> decide
    have hdeny := validateTransition_done_nonfounder rules hrules t a hlow
    rw [allowedB_false_iff] at hdeny
    obtain ⟨r, hr⟩ := hdeny
    have hred := transitionHandler_deny rules s t a (some "Done") r (by decide) hc hr
    refine ⟨r, ?_, ?_⟩ <;> rw [hred] <;> simp [hc]
  · intro hrole
    have hlow : jsToLower a.agentRole = "founder" := by rw [hrole]; decide
    have hallow := validateTransition_done_founder rules hrules t a hst hlow
    have hred := transitionHandler_allow rules s t a (some "Done") (by decide) hc hallow
    rw [hred]
    simp

/-- Witness for C2: concrete card `c1` in `Review` owned by `a1`; the
non-owner agent `a2`... in fact even the owner `a1` (role agent) is denied,
while the founder succeeds and the stored status becomes `Done`. -/
theorem c2_founder_only_closure_witness :
    (∃ r, (transitionHandler TRANSITION_RULES_V2 (mkState (some "a1") "Review")
          (some "Done") agentA1).2 = TransitionResp.denied r "Review" "Done" ∧
      (transitionHandler TRANSITION_RULES_V2 (mkState (some "a1") "Review")
          (some "Done") agentA1).1.card = (mkState (some "a1") "Review").card) ∧
    ((transitionHandler TRANSITION_RULES_V2 (mkState (some "a1") "Review")
          (some "Done") founderOwner).2 = TransitionResp.ok "c1" "Review" "Done" ∧
      (transitionHandler TRANSITION_RULES_V2 (mkState (some "a1") "Review")
          (some "Done") founderOwner).1.card =
        some { mkTask (some "a1") "Review" with status := "Done", updated_at := 5 }) := by
  constructor
  · exact (c2_founder_only_closure TRANSITION_RULES_V2 (Or.inr rfl)
      (mkState (some "a1") "Review") (mkTask (some "a1") "Review") agentA1 rfl
      (Or.inl rfl)).1 (Or.inl rfl)
  · exact (c2_founder_only_closure TRANSITION_RULES_V2 (Or.inr rfl)
      (mkState (some "a1") "Review") (mkTask (some "a1") "Review") founderOwner rfl
      (Or.inl rfl)).2 rfl

theorem putHandlerWith_gate (rules : String → Option Rule)
    (stored : PutBody → Task → Nat → Task) (s : ServerState) (body : PutBody)
    (a : AgentInfo) (t : Task)
    (hc : s.card = some t) (hg : putAssignmentDenied body t a = true) :
    putHandlerWith rules stored s body a =
      (s, .assignmentDenied "Only Founder or Agents can assign unassigned tasks") := by
  simp [putHandlerWith, hc, hg]

theorem putHandlerWith_noStatusChange (rules : String → Option Rule)
    (stored : PutBody → Task → Nat → Task) (s : ServerState) (body : PutBody)
    (a : AgentInfo) (t : Task)
    (hc : s.card = some t) (hg : putAssignmentDenied body t a = false)
    (hs : body.status = none ∨ body.status = some t.status) :
    putHandlerWith rules stored s body a =
      ({ card := some (stored body t s.nowTime),
         log := logActivity "update" t.id t.title
                  ("Updated: " ++ String.intercalate ", " (putChanges body t)) a
                  { fromStatus := some t.status,
                    toStatus := some (jsStr body.status t.status),
                    branch := none, repo := none, allowed := some true,
                    denialReason := none } s.log,
         nowTime := s.nowTime + 1 },
       .ok) := by
  rcases hs with h | h <;> simp [putHandlerWith, hc, hg, h]

theorem putHandlerWith_statusDeny (rules : String → Option Rule)
    (stored : PutBody → Task → Nat → Task) (s : ServerState) (body : PutBody)
    (a : AgentInfo) (t : Task) (st r : String)
    (hc : s.card = some t) (hg : putAssignmentDenied body t a = false)
    (hb : body.status = some st) (hne : st ≠ t.status)
    (hv : validateTransition rules t st a = .deny r) :
    putHandlerWith rules stored s body a =
      ({ s with log := logTransitionAttempt t.id t.title t.status st a false (some r)
                  (jsSel body.branch t.branch) (jsSel body.repo t.repo) s.log },
       .transitionDenied r t.status st) := by
  simp [putHandlerWith, hc, hg, hb, hne, hv]

theorem putHandlerWith_statusAllow (rules : String → Option Rule)
    (stored : PutBody → Task → Nat → Task) (s : ServerState) (body : PutBody)
    (a : AgentInfo) (t : Task) (st : String)
    (hc : s.card = some t) (hg : putAssignmentDenied body t a = false)
    (hb : body.status = some st) (hne : st ≠ t.status)
    (hv : validateTransition rules t st a = .allow) :
    putHandlerWith rules stored s body a =
      ({ card := some (stored body t s.nowTime),
         log := logActivity "update" t.id t.title
                  ("Updated: " ++ String.intercalate ", " (putChanges body t)) a
                  { fromStatus := some t.status,
                    toStatus := some (jsStr body.status t.status),
                    branch := none, repo := none, allowed := some true,
                    denialReason := none }
                  (logTransitionAttempt t.id t.title t.status st a true none
                    (jsSel body.branch t.branch) (jsSel body.repo t.repo) s.log),
         nowTime := s.nowTime + 1 },
       .ok) := by
  simp [putHandlerWith, hc, hg, hb, hne, hv]

theorem validateTransition_unassigned_nonfounder (rules : String → Option Rule)
    (t : Task) (ns : String) (a : AgentInfo)
    (hu : isUnassigned t = true) (hlow : jsToLower a.agentRole ≠ "founder") :
    validateTransition rules t ns a =
      .deny "Cannot move or change status unassigned task. Only Founder can modify unassigned tasks." := by
  rw [validateTransition, validateUnassignedAction_deny t a _ hu hlow]
  show Decision.deny ("Cannot " ++ "move or change status" ++
    " unassigned task. Only Founder can modify unassigned tasks.") = _
  decide

/-- C3 counterexample: the claim says *every* mutating request on an
unassigned card from a non-founder is denied with 403, including a general
field update without a status change. But `PUT /api/tasks/:id` only runs the
unassigned gate inside the status-transition branch: a `member` PUT that
changes only the title of an unassigned card returns 200 and rewrites the
stored row. -/
theorem c3_unassigned_lock_counterexample :
    (putHandlerV2 (mkState none "To Do")
        { emptyPutBody with title := some "New title" } memberM1).2 = PutResp.ok ∧
    ((putHandlerV2 (mkState none "To Do")
        { emptyPutBody with title := some "New title" } memberM1).1.card.map
      Task.title) = some "New title" := by
  decide

/-- C3 (amended): on a card with empty `owner_agent`, a `transition` request
and a PUT that carries a status change are denied (403, card unchanged) for
every non-founder actor, and the unassigned gate never denies a founder; but
a PUT that carries no status change and does not touch `owner_agent` is not
subject to the unassigned lock: it succeeds (200) for any actor role and
mutates the card. -/
theorem c3_unassigned_lock_amended
    (rules : String → Option Rule) (stored : PutBody → Task → Nat → Task)
    (s : ServerState) (t : Task) (a : AgentInfo)
    (hc : s.card = some t) (hu : isUnassigned t = true) :
    (∀ ns : Option String, jsTruthy ns = true → jsToLower a.agentRole ≠ "founder" →
      (transitionHandler rules s ns a).2 =
        TransitionResp.denied
          "Cannot move or change status unassigned task. Only Founder can modify unassigned tasks."
          t.status (ns.getD "") ∧
      (transitionHandler rules s ns a).1.card = s.card) ∧
    (∀ body : PutBody, ∀ st : String, body.status = some st → st ≠ t.status →
      jsToLower a.agentRole ≠ "founder" →
      ((putHandlerWith rules stored s body a).2 =
          PutResp.transitionDenied
            "Cannot move or change status unassigned task. Only Founder can modify unassigned tasks."
            t.status st ∨
        (putHandlerWith rules stored s body a).2 =
          PutResp.assignmentDenied "Only Founder or Agents can assign unassigned tasks") ∧
      (putHandlerWith rules stored s body a).1.card = s.card) ∧
    (jsToLower a.agentRole = "founder" →
      validateUnassignedAction t a "move or change status" = Decision.allow ∧
      ∀ body : PutBody, putAssignmentDenied body t a = false) ∧
    (∀ body : PutBody, body.status = none → body.owner_agent = none →
      (putHandlerWith rules stored s body a).2 = PutResp.ok) := by
  refine ⟨?_, ?_, ?_, ?_⟩
  · intro ns hns hlow
    have hv := validateTransition_unassigned_nonfounder rules t (ns.getD "") a hu hlow
    have hred := transitionHandler_deny rules s t a ns _ hns hc hv
    rw [hred]
    simp [hc]
  · intro body st hb hne hlow
    by_cases hg : putAssignmentDenied body t a = true
    · rw [putHandlerWith_gate rules stored s body a t hc hg]
      simp [hc]
    · have hv := validateTransition_unassigned_nonfounder rules t st a hu hlow
      rw [putHandlerWith_statusDeny rules stored s body a t st _ hc
        (bool_eq_false_of_not_true hg) hb hne hv]
      simp [hc]
  · intro hlow
    refine ⟨validateUnassignedAction_founder t a _ hlow, ?_⟩
    intro body
    cases hbo : body.owner_agent with
    | none => simp [putAssignmentDenied, hbo]
    | some v =>
      by_cases hov : t.owner_agent = some v <;>
        simp [putAssignmentDenied, hbo, hov, hlow, ROLES]
  · intro body hbs hbo
    have hg : putAssignmentDenied body t a = false := by
      simp [putAssignmentDenied, hbo]
    rw [putHandlerWith_noStatusChange rules stored s body a t hc hg (Or.inl hbs)]

/-- Witness for C3 (amended) at concrete inputs: unassigned card `c1` in
`To Do`; the member `m1` is denied a transition to `Ongoing` and a PUT
carrying `status: Review`, the founder passes the gate, and a member PUT
carrying only a title is accepted. -/
theorem c3_unassigned_lock_amended_witness :
    ((transitionHandler TRANSITION_RULES_V2 (mkState none "To Do")
        (some "Ongoing") memberM1).2 =
      TransitionResp.denied
        "Cannot move or change status unassigned task. Only Founder can modify unassigned tasks."
        "To Do" "Ongoing") ∧
    ((putHandlerV2 (mkState none "To Do")
        { emptyPutBody with status := some "Review" } memberM1).2 =
          PutResp.transitionDenied
            "Cannot move or change status unassigned task. Only Founder can modify unassigned tasks."
            "To Do" "Review" ∨
      (putHandlerV2 (mkState none "To Do")
        { emptyPutBody with status := some "Review" } memberM1).2 =
          PutResp.assignmentDenied "Only Founder or Agents can assign unassigned tasks") ∧
    validateUnassignedAction (mkTask none "To Do") founderOwner "move or change status" =
      Decision.allow ∧
    (putHandlerV2 (mkState none "To Do")
        { emptyPutBody with title := some "T" } memberM1).2 = PutResp.ok := by
  refine ⟨?_, ?_, ?_, ?_⟩
  · exact ((c3_unassigned_lock_amended TRANSITION_RULES_V2 putStoredV2
      (mkState none "To Do") (mkTask none "To Do") memberM1 rfl rfl).1
      (some "Ongoing") (by decide) (by decide)).1
  · exact ((c3_unassigned_lock_amended TRANSITION_RULES_V2 putStoredV2
      (mkState none "To Do") (mkTask none "To Do") memberM1 rfl rfl).2.1
      { emptyPutBody with status := some "Review" } "Review" rfl (by decide)
      (by decide)).1
  · exact ((c3_unassigned_lock_amended TRANSITION_RULES_V2 putStoredV2
      (mkState none "To Do") (mkTask none "To Do") founderOwner rfl rfl).2.2.1
      (by decide)).1
  · exact (c3_unassigned_lock_amended TRANSITION_RULES_V2 putStoredV2
      (mkState none "To Do") (mkTask none "To Do") memberM1 rfl rfl).2.2.2
      { emptyPutBody with title := some "T" } rfl rfl

theorem validateTransition_not_from (rules : String → Option Rule)
    (t : Task) (ns : String) (a : AgentInfo) (rule : Rule)
    (hr : rules ns = some rule)
    (hf : rule.fromStatuses.contains t.status = false) :
    (validateTransition rules t ns a).allowedB = false := by
  rw [validateTransition]
  cases hgate : validateUnassignedAction t a "move or change status" with
  | deny r => rfl
  | allow =>
    have hf2 : t.status ∉ rule.fromStatuses := by simpa using hf
    simp [hr, hf2, Decision.allowedB]

theorem validateTransition_no_rule (rules : String → Option Rule)
    (t : Task) (ns : String) (a : AgentInfo)
    (hr : rules ns = none)
    (hg : isUnassigned t = false ∨ jsToLower a.agentRole = "founder") :
    validateTransition rules t ns a = .allow := by
  have hgate : validateUnassignedAction t a "move or change status" = .allow := by
    rcases hg with h | h
    · exact validateUnassignedAction_assigned t a _ h
    · exact validateUnassignedAction_founder t a _ h
  rw [validateTransition, hgate, hr]

/-- C4 counterexample: a card in `Done` CAN be transitioned away: the rule
table is keyed by the *target* status and has no entry for `Backlog`,
`To Do` or `Agent Inbox`, so `Done → Backlog` is allowed — here shown both
for a founder and for a plain agent who owns the card; the stored status
changes, so `Done` is not terminal. -/
theorem c4_done_terminal_counterexample :
    (transitionHandler TRANSITION_RULES_V2 (mkState (some "a1") "Done")
        (some "Backlog") founderOwner).2 = TransitionResp.ok "c1" "Done" "Backlog" ∧
    ((transitionHandler TRANSITION_RULES_V2 (mkState (some "a1") "Done")
        (some "Backlog") founderOwner).1.card.map Task.status) = some "Backlog" ∧
    (transitionHandler TRANSITION_RULES_V2 (mkState (some "a1") "Done")
        (some "Backlog") agentA1).2 = TransitionResp.ok "c1" "Done" "Backlog" := by
  decide

/-- C4 (amended): from `Done`, transitions into the three ruled targets
(`Ongoing`, `Review`, `Done`) are denied for every actor because `Done` is
not among their legal source statuses; but a transition into any target with
no rule entry (e.g. `Backlog`, `To Do`, `Agent Inbox`) passes the policy
whenever the unassigned gate passes, so `Done` is not a terminal status. -/
theorem c4_done_terminal_amended
    (rules : String → Option Rule)
    (hrules : rules = TRANSITION_RULES_V1 ∨ rules = TRANSITION_RULES_V2)
    (t : Task) (a : AgentInfo) (hst : t.status = "Done") :
    ((validateTransition rules t "Ongoing" a).allowedB = false ∧
     (validateTransition rules t "Review" a).allowedB = false ∧
     (validateTransition rules t "Done" a).allowedB = false) ∧
    (∀ target : String, rules target = none →
      (isUnassigned t = false ∨ jsToLower a.agentRole = "founder") →
      validateTransition rules t target a = Decision.allow) := by
  constructor
  · rcases hrules with h | h <;> subst h <;>
      exact ⟨validateTransition_not_from _ t _ a _ rfl (by rw [hst]; decide),
             validateTransition_not_from _ t _ a _ rfl (by rw [hst]; decide),
             validateTransition_not_from _ t _ a _ rfl (by rw [hst]; decide)⟩
  · intro target hr hg
    exact validateTransition_no_rule rules t target a hr hg

/-- Witness for C4 (amended): concrete `Done` card owned by `a1`, actor the
agent `a1`: the three ruled targets are denied, and target `Backlog` (no
rule entry) is allowed. -/
theorem c4_done_terminal_amended_witness :
    ((validateTransition TRANSITION_RULES_V2 (mkTask (some "a1") "Done")
        "Ongoing" agentA1).allowedB = false ∧
     (validateTransition TRANSITION_RULES_V2 (mkTask (some "a1") "Done")
        "Review" agentA1).allowedB = false ∧
     (validateTransition TRANSITION_RULES_V2 (mkTask (some "a1") "Done")
        "Done" agentA1).allowedB = false) ∧
    validateTransition TRANSITION_RULES_V2 (mkTask (some "a1") "Done")
      "Backlog" agentA1 = Decision.allow := by
  constructor
  · exact (c4_done_terminal_amended TRANSITION_RULES_V2 (Or.inr rfl)
      (mkTask (some "a1") "Done") agentA1 rfl).1
  · exact (c4_done_terminal_amended TRANSITION_RULES_V2 (Or.inr rfl)
      (mkTask (some "a1") "Done") agentA1 rfl).2 "Backlog" rfl (Or.inl (by decide))

/-- C5 counterexample: the spec's scenario claims an `Agent Inbox` card can
be transitioned to `Ongoing` with 200 by its owner agent, but in variant 1
the `Ongoing` rule's `fromStatuses` are only `To Do` and `Backlog`, so the
very same request is denied with 403. -/
theorem c5_agent_inbox_counterexample :
    (transitionHandler TRANSITION_RULES_V1 (mkState (some "a1") "Agent Inbox")
        (some "Ongoing") agentA1).2 =
      TransitionResp.denied
        "Cannot transition from \"Agent Inbox\" to \"Ongoing\". Valid from: To Do, Backlog"
        "Agent Inbox" "Ongoing" := by
  decide

/-- C5 (amended): in both variants a transition into `Ongoing` from any
source outside `To Do`, `Backlog`, `Agent Inbox` is denied regardless of
actor; in variant 2 `Agent Inbox` is a legal source and the owner agent's
transition to `Ongoing` succeeds with 200; but in variant 1 `Agent Inbox`
is NOT a legal source and the same transition is denied. -/
theorem c5_ongoing_sources_amended (t : Task) (a : AgentInfo) :
    (∀ rules : String → Option Rule,
      rules = TRANSITION_RULES_V1 ∨ rules = TRANSITION_RULES_V2 →
      t.status ∉ (["To Do", "Backlog", "Agent Inbox"] : List String) →
      (validateTransition rules t "Ongoing" a).allowedB = false) ∧
    (∀ s : ServerState, s.card = some t → t.status = "Agent Inbox" →
      t.owner_agent = some a.agentId → a.agentId ≠ "" →
      (transitionHandler TRANSITION_RULES_V2 s (some "Ongoing") a).2 =
        TransitionResp.ok t.id t.status "Ongoing") ∧
    (t.status = "Agent Inbox" →
      (validateTransition TRANSITION_RULES_V1 t "Ongoing" a).allowedB = false) := by
  refine ⟨?_, ?_, ?_⟩
  · intro rules hrules hn
    have hmem2 : t.status ∉ (["To Do", "Backlog"] : List String) := by
      intro hm
      apply hn
      simp at hm ⊢
      tauto
    rcases hrules with h | h <;> subst h
    · exact validateTransition_not_from _ t _ a _ rfl (by simpa using hmem2)
    · exact validateTransition_not_from _ t _ a _ rfl (by simpa using hn)
  · intro s hc hst hown hne
    have hu : isUnassigned t = false := by
      rw [isUnassigned_false_iff]
      exact ⟨a.agentId, hown, hne⟩
    have hv : validateTransition TRANSITION_RULES_V2 t "Ongoing" a = .allow := by
      rw [validateTransition, validateUnassignedAction_assigned t a _ hu]
      have hr2 : TRANSITION_RULES_V2 "Ongoing" =
          some ⟨true, false, ["To Do", "Backlog", "Agent Inbox"],
            [ROLES.FOUNDER, ROLES.AGENT, ROLES.MEMBER]⟩ := rfl
      rw [hr2]
      simp [hst, hown]
    have hred := transitionHandler_allow TRANSITION_RULES_V2 s t a (some "Ongoing")
      (by decide) hc hv
    rw [hred]
    rfl
  · intro hst
    exact validateTransition_not_from _ t _ a _ rfl (by rw [hst]; decide)

/-- Witness for C5 (amended): a `Review` card cannot enter `Ongoing` in
variant 2; the owner agent of an `Agent Inbox` card gets 200 in variant 2
and is denied in variant 1. -/
theorem c5_ongoing_sources_amended_witness :
    (validateTransition TRANSITION_RULES_V2 (mkTask (some "a1") "Review")
      "Ongoing" agentA1).allowedB = false ∧
    (transitionHandler TRANSITION_RULES_V2 (mkState (some "a1") "Agent Inbox")
        (some "Ongoing") agentA1).2 =
      TransitionResp.ok "c1" "Agent Inbox" "Ongoing" ∧
    (validateTransition TRANSITION_RULES_V1 (mkTask (some "a1") "Agent Inbox")
      "Ongoing" agentA1).allowedB = false := by
  refine ⟨?_, ?_, ?_⟩
  · exact (c5_ongoing_sources_amended (mkTask (some "a1") "Review") agentA1).1
      TRANSITION_RULES_V2 (Or.inr rfl) (by decide)
  · exact (c5_ongoing_sources_amended (mkTask (some "a1") "Agent Inbox") agentA1).2.1
      (mkState (some "a1") "Agent Inbox") rfl rfl rfl (by decide)
  · exact (c5_ongoing_sources_amended (mkTask (some "a1") "Agent Inbox") agentA1).2.2 rfl

theorem validateClaimAction_assigned (t : Task) (a : AgentInfo)
    (hu : isUnassigned t = false) :
    ∃ r, validateClaimAction t a = .deny r := by
  rw [validateClaimAction]
  split
  · exact ⟨_, rfl⟩
  · simp [hu]

theorem validateClaimAction_member (t : Task) (a : AgentInfo)
    (hrole : jsToLower a.agentRole = "member") :
    validateClaimAction t a = .deny "Only Founder or Agents can claim tasks" := by
  simp [validateClaimAction, hrole, ROLES]

theorem validateClaimAction_allow (t : Task) (a : AgentInfo)
    (hu : isUnassigned t = true)
    (hrole : jsToLower a.agentRole = "founder" ∨ jsToLower a.agentRole = "agent") :
    validateClaimAction t a = .allow := by
  rcases hrole with h | h <;> simp [validateClaimAction, h, hu, ROLES]

theorem claimCardsHandler_deny (s : ServerState) (t : Task) (a : AgentInfo)
    (r : String) (hc : s.card = some t) (hv : validateClaimAction t a = .deny r) :
    claimCardsHandler s a =
      ({ s with log := logActivity "claim_denied" t.id t.title
                 ("Claim attempt by " ++ a.agentId ++ " denied: " ++ r) a
                 emptyTransitionInfo s.log },
       .conflict r t.owner_agent) := by
  simp [claimCardsHandler, hc, hv]

theorem claimCardsHandler_allow (s : ServerState) (t : Task) (a : AgentInfo)
    (hc : s.card = some t) (hv : validateClaimAction t a = .allow) :
    claimCardsHandler s a =
      ({ card := some { t with owner_agent := some a.agentId, updated_at := s.nowTime },
         log := logActivity "claim" t.id t.title ("Task claimed by " ++ a.agentId) a
                  emptyTransitionInfo s.log,
         nowTime := s.nowTime + 1 },
       .ok t.id a.agentId) := by
  simp [claimCardsHandler, hc, hv]

/-- C6: for a claim via `POST /api/cards/:id/claim` on an existing card:
an already-claimed card yields a 409 conflict whose body carries
`current_owner` = the existing owner (whatever the actor's role); an
unassigned card claimed by a `member` is denied (only founder or agent may
claim); an unassigned card claimed by a `founder` or `agent` gets
`owner_agent` set to the actor's agentId, which the 200 body reports. -/
theorem c6_claim_conflict_and_eligibility
    (s : ServerState) (t : Task) (a : AgentInfo) (hc : s.card = some t) :
    (isUnassigned t = false →
      ∃ r, (claimCardsHandler s a).2 = ClaimResp.conflict r t.owner_agent) ∧
    (isUnassigned t = true → a.agentRole = "member" →
      (claimCardsHandler s a).2 =
        ClaimResp.conflict "Only Founder or Agents can claim tasks" t.owner_agent ∧
      (claimCardsHandler s a).1.card = s.card) ∧
    (isUnassigned t = true → (a.agentRole = "founder" ∨ a.agentRole = "agent") →
      (claimCardsHandler s a).2 = ClaimResp.ok t.id a.agentId ∧
      (claimCardsHandler s a).1.card =
        some { t with owner_agent := some a.agentId, updated_at := s.nowTime }) := by
  refine ⟨?_, ?_, ?_⟩
  · intro hu
    obtain ⟨r, hv⟩ := validateClaimAction_assigned t a hu
    exact ⟨r, by rw [claimCardsHandler_deny s t a r hc hv]⟩
  · intro _ hrole
    have hv := validateClaimAction_member t a (by rw [hrole]; decide)
    rw [claimCardsHandler_deny s t a _ hc hv]
    simp [hc]
  · intro hu hrole
    have hv := validateClaimAction_allow t a hu
      (by rcases hrole with h | h <;> rw [h] <;> [exact Or.inl (by decide); exact Or.inr (by decide)])
    rw [claimCardsHandler_allow s t a hc hv]
    simp
/-- Witness for C6: claiming the already-owned card `c1` (owner `a1`) as
`a2` conflicts and reports `current_owner a1`; a member's claim of an
unassigned card is denied; agent `a1` claiming an unassigned card gets 200
and ownership. -/
theorem c6_claim_conflict_and_eligibility_witness :
    (∃ r, (claimCardsHandler (mkState (some "a1") "To Do") agentA2).2 =
      ClaimResp.conflict r (some "a1")) ∧
    ((claimCardsHandler (mkState none "To Do") memberM1).2 =
      ClaimResp.conflict "Only Founder or Agents can claim tasks" none) ∧
    ((claimCardsHandler (mkState none "To Do") agentA1).2 =
      ClaimResp.ok "c1" "a1") := by
  refine ⟨?_, ?_, ?_⟩
  · exact (c6_claim_conflict_and_eligibility (mkState (some "a1") "To Do")
      (mkTask (some "a1") "To Do") agentA2 rfl).1 (by decide)
  · exact ((c6_claim_conflict_and_eligibility (mkState none "To Do")
      (mkTask none "To Do") memberM1 rfl).2.1 rfl rfl).1
  · exact ((c6_claim_conflict_and_eligibility (mkState none "To Do")
      (mkTask none "To Do") agentA1 rfl).2.2 rfl (Or.inr rfl)).1

theorem data_append_ne_nil (s t : String) (h : s.data ≠ []) : (s ++ t).data ≠ [] := by
  rw [String.data_append]
  intro he
  exact h (List.append_eq_nil.mp he).1

theorem validateUnassignedAction_deny_reason_ne (t : Task) (a : AgentInfo)
    (act r : String) (hv : validateUnassignedAction t a act = .deny r) : r ≠ "" := by
  rw [validateUnassignedAction] at hv
  split at hv
  · split at hv
    · injection hv with h
      rw [← h]
      exact append_ne_empty_left _ _ (data_append_ne_nil _ _ (by decide))
    · cases hv
  · cases hv

theorem validateTransition_deny_reason_ne (rules : String → Option Rule)
    (t : Task) (ns : String) (a : AgentInfo) (r : String)
    (hv : validateTransition rules t ns a = .deny r) : r ≠ "" := by
  rw [validateTransition] at hv
  split at hv
  · next r2 heq =>
    injection hv with h
    rw [← h]
    exact validateUnassignedAction_deny_reason_ne t a _ r2 heq
  · next heq =>
    split at hv
    · cases hv
    · split at hv
      · injection hv with h
        rw [← h]
        exact append_ne_empty_left _ _
          (data_append_ne_nil _ _ (data_append_ne_nil _ _ (data_append_ne_nil _ _
            (data_append_ne_nil _ _ (by decide)))))
      · dsimp only at hv
        split at hv
        · injection hv with h
          rw [← h]
          decide
        · split at hv
          · injection hv with h
            rw [← h]
            exact append_ne_empty_left _ _
              (data_append_ne_nil _ _ (data_append_ne_nil _ _
                (data_append_ne_nil _ _ (by decide))))
          · cases hv

/-- C7 counterexample: both claim-logging calls pass an empty
`transitionInfo`, so `transition_allowed = (undefined ? 1 : 0) = 0` and
`denial_reason = undefined || null = null`. Hence a *successful* claim is
logged with `transition_allowed = 0` (the claim demands 1), and a *denied*
claim is logged with `denial_reason = null` (the claim demands non-null). -/
theorem c7_audit_completeness_counterexample :
    ((claimCardsHandler (mkState none "To Do") agentA1).2 =
      ClaimResp.ok "c1" "a1") ∧
    ((claimCardsHandler (mkState none "To Do") agentA1).1.log.map
      LogEntry.action = ["claim"]) ∧
    ((claimCardsHandler (mkState none "To Do") agentA1).1.log.map
      LogEntry.transition_allowed = [0]) ∧
    ((claimCardsHandler (mkState (some "a1") "To Do") agentA2).1.log.map
      LogEntry.action = ["claim_denied"]) ∧
    ((claimCardsHandler (mkState (some "a1") "To Do") agentA2).1.log.map
      LogEntry.denial_reason = [none]) := by
  decide

/-- C7 (amended): every denied transition appends exactly one `transition`
row with `transition_allowed = 0` and a non-null `denial_reason`, and every
allowed transition appends exactly one row with `transition_allowed = 1`
and null `denial_reason`; every claim attempt (on either claim endpoint)
appends exactly one row, but claim rows always carry
`transition_allowed = 0` and null `denial_reason` — the outcome is encoded
only in the action name (`claim` vs `claim_denied`). -/
theorem c7_audit_completeness_amended
    (rules : String → Option Rule) (s : ServerState) (t : Task) (a : AgentInfo)
    (hc : s.card = some t) :
    (∀ ns : Option String, ∀ r : String, jsTruthy ns = true →
      validateTransition rules t (ns.getD "") a = .deny r →
      ∃ e, (transitionHandler rules s ns a).1.log = s.log ++ [e] ∧
        e.action = "transition" ∧ e.transition_allowed = 0 ∧
        e.denial_reason = some r ∧ e.denial_reason ≠ none) ∧
    (∀ ns : Option String, jsTruthy ns = true →
      validateTransition rules t (ns.getD "") a = .allow →
      ∃ e, (transitionHandler rules s ns a).1.log = s.log ++ [e] ∧
        e.action = "transition" ∧ e.transition_allowed = 1 ∧
        e.denial_reason = none) ∧
    (validateClaimAction t a = .allow →
      ∃ e, (claimCardsHandler s a).1.log = s.log ++ [e] ∧
        e.action = "claim" ∧ e.transition_allowed = 0 ∧ e.denial_reason = none) ∧
    (∀ r : String, validateClaimAction t a = .deny r →
      ∃ e, (claimCardsHandler s a).1.log = s.log ++ [e] ∧
        e.action = "claim_denied" ∧ e.transition_allowed = 0 ∧
        e.denial_reason = none) ∧
    (validateClaimAction t a = .allow →
      ∃ e, (claimTasksHandler s a).1.log = s.log ++ [e] ∧
        e.action = "claim" ∧ e.transition_allowed = 0 ∧ e.denial_reason = none) ∧
    (∀ r : String, validateClaimAction t a = .deny r →
      ∃ e, (claimTasksHandler s a).1.log = s.log ++ [e] ∧
        e.action = "claim_denied" ∧ e.transition_allowed = 0 ∧
        e.denial_reason = none) := by
  refine ⟨?_, ?_, ?_, ?_, ?_, ?_⟩
  · intro ns r hns hv
    have hr := validateTransition_deny_reason_ne rules t (ns.getD "") a r hv
    rw [transitionHandler_deny rules s t a ns r hns hc hv]
    refine ⟨_, rfl, rfl, rfl, ?_, ?_⟩ <;>
      simp [logTransitionAttempt, logActivity, jsSel, jsTruthy, hr]
  · intro ns hns hv
    rw [transitionHandler_allow rules s t a ns hns hc hv]
    exact ⟨_, rfl, rfl, rfl, rfl⟩
  · intro hv
    rw [claimCardsHandler_allow s t a hc hv]
    exact ⟨_, rfl, rfl, rfl, rfl⟩
  · intro r hv
    rw [claimCardsHandler_deny s t a r hc hv]
    exact ⟨_, rfl, rfl, rfl, rfl⟩
  · intro hv
    simp [claimTasksHandler, hc, hv]
    exact ⟨_, rfl, rfl, rfl, rfl⟩
  · intro r hv
    simp [claimTasksHandler, hc, hv]
    exact ⟨_, rfl, rfl, rfl, rfl⟩

/-- Witness for C7 (amended) at concrete inputs: a denied transition
(member moving an unassigned card), an allowed transition (agent `a1`
moving the card it owns out of `To Do`), a successful claim and a denied
claim on each claim endpoint. -/
theorem c7_audit_completeness_amended_witness :
    (∃ e, (transitionHandler TRANSITION_RULES_V2 (mkState none "To Do")
        (some "Ongoing") memberM1).1.log = [] ++ [e] ∧
      e.action = "transition" ∧ e.transition_allowed = 0 ∧
      e.denial_reason = some
        "Cannot move or change status unassigned task. Only Founder can modify unassigned tasks." ∧
      e.denial_reason ≠ none) ∧
    (∃ e, (transitionHandler TRANSITION_RULES_V2 (mkState (some "a1") "To Do")
        (some "Ongoing") agentA1).1.log = [] ++ [e] ∧
      e.action = "transition" ∧ e.transition_allowed = 1 ∧
      e.denial_reason = none) ∧
    (∃ e, (claimCardsHandler (mkState none "To Do") agentA1).1.log = [] ++ [e] ∧
      e.action = "claim" ∧ e.transition_allowed = 0 ∧ e.denial_reason = none) ∧
    (∃ e, (claimTasksHandler (mkState (some "a1") "To Do") agentA2).1.log = [] ++ [e] ∧
      e.action = "claim_denied" ∧ e.transition_allowed = 0 ∧
      e.denial_reason = none) := by
  refine ⟨?_, ?_, ?_, ?_⟩
  · exact (c7_audit_completeness_amended TRANSITION_RULES_V2 (mkState none "To Do")
      (mkTask none "To Do") memberM1 rfl).1 (some "Ongoing") _ (by decide)
      (validateTransition_unassigned_nonfounder TRANSITION_RULES_V2
        (mkTask none "To Do") "Ongoing" memberM1 rfl (by decide))
  · exact (c7_audit_completeness_amended TRANSITION_RULES_V2
      (mkState (some "a1") "To Do") (mkTask (some "a1") "To Do") agentA1 rfl).2.1
      (some "Ongoing") (by decide) (by decide)
  · exact (c7_audit_completeness_amended TRANSITION_RULES_V2 (mkState none "To Do")
      (mkTask none "To Do") agentA1 rfl).2.2.1 (by decide)
  · exact (c7_audit_completeness_amended TRANSITION_RULES_V2
      (mkState (some "a1") "To Do") (mkTask (some "a1") "To Do") agentA2 rfl).2.2.2.2.2
      "Task is already assigned to a1" (by decide)

/-- C8 counterexample: there is no same-status short-circuit. A transition
request `Ongoing → Ongoing` by the owner agent is DENIED with 403 (the
`Ongoing` rule does not list `Ongoing` as a source) and a denial row is
logged; and a `Backlog → Backlog` request is allowed, restamps `updated_at`
(0 → 5) and logs a success row — in every case the claim's "no state
change, no log entry, treated as allowed" fails. -/
theorem c8_idempotent_noop_counterexample :
    ((transitionHandler TRANSITION_RULES_V2 (mkState (some "a1") "Ongoing")
        (some "Ongoing") agentA1).2 =
      TransitionResp.denied
        "Cannot transition from \"Ongoing\" to \"Ongoing\". Valid from: To Do, Backlog, Agent Inbox"
        "Ongoing" "Ongoing") ∧
    ((transitionHandler TRANSITION_RULES_V2 (mkState (some "a1") "Ongoing")
        (some "Ongoing") agentA1).1.log.length = 1) ∧
    ((transitionHandler TRANSITION_RULES_V2 (mkState (some "a1") "Backlog")
        (some "Backlog") agentA1).2 = TransitionResp.ok "c1" "Backlog" "Backlog") ∧
    ((transitionHandler TRANSITION_RULES_V2 (mkState (some "a1") "Backlog")
        (some "Backlog") agentA1).1.card.map Task.updated_at = some 5) ∧
    ((transitionHandler TRANSITION_RULES_V2 (mkState (some "a1") "Backlog")
        (some "Backlog") agentA1).1.log.length = 1) := by
  decide

/-- C8 (amended): a same-status transition request is NOT short-circuited —
it runs the full policy. Into a ruled target (`Ongoing`, `Review`, `Done`)
it is denied for every actor, because no ruled target lists itself as a
legal source; into a rule-less target it is allowed whenever the unassigned
gate passes, restamping `updated_at` and appending a success log row. In
the PUT endpoint a body whose status equals the card's skips transition
validation but still rewrites the row (restamping `updated_at`) and appends
one `update` log row. -/
theorem c8_idempotent_noop_amended
    (s : ServerState) (t : Task) (a : AgentInfo) (hc : s.card = some t) :
    (∀ rules : String → Option Rule,
      rules = TRANSITION_RULES_V1 ∨ rules = TRANSITION_RULES_V2 →
      t.status ∈ (["Ongoing", "Review", "Done"] : List String) →
      (validateTransition rules t t.status a).allowedB = false) ∧
    (∀ rules : String → Option Rule,
      rules t.status = none → t.status ≠ "" →
      (isUnassigned t = false ∨ jsToLower a.agentRole = "founder") →
      (transitionHandler rules s (some t.status) a).2 =
        TransitionResp.ok t.id t.status t.status ∧
      (transitionHandler rules s (some t.status) a).1.card =
        some { t with status := t.status, updated_at := s.nowTime } ∧
      ∃ e, (transitionHandler rules s (some t.status) a).1.log = s.log ++ [e] ∧
        e.transition_allowed = 1) ∧
    (∀ rules : String → Option Rule, ∀ stored : PutBody → Task → Nat → Task,
      ∀ body : PutBody, body.status = some t.status →
      putAssignmentDenied body t a = false →
      (putHandlerWith rules stored s body a).2 = PutResp.ok ∧
      (putHandlerWith rules stored s body a).1.card = some (stored body t s.nowTime) ∧
      ∃ e, (putHandlerWith rules stored s body a).1.log = s.log ++ [e] ∧
        e.action = "update") := by
  refine ⟨?_, ?_, ?_⟩
  · intro rules hrules hts
    have hts2 : t.status = "Ongoing" ∨ t.status = "Review" ∨ t.status = "Done" := by
      simpa using hts
    rcases hrules with h | h <;> subst h <;>
      rcases hts2 with h2 | h2 | h2 <;> rw [h2] <;>
      exact validateTransition_not_from _ t _ a _ rfl (by rw [h2]; decide)
  · intro rules hr hne hg
    have hv := validateTransition_no_rule rules t t.status a hr hg
    have hns : jsTruthy (some t.status) = true := by simp [jsTruthy, hne]
    have hred := transitionHandler_allow rules s t a (some t.status) hns hc
      (by simpa using hv)
    rw [hred]
    exact ⟨rfl, rfl, _, rfl, rfl⟩
  · intro rules stored body hb hg
    rw [putHandlerWith_noStatusChange rules stored s body a t hc hg (Or.inr hb)]
    exact ⟨rfl, rfl, _, rfl, rfl⟩

/-- Witness for C8 (amended): the concrete card owned by `a1`: in `Ongoing`
the same-status transition is denied; in `Backlog` (rule-less) it succeeds
with a restamped `updated_at` and one success row; and a PUT carrying
`status: Backlog` on the `Backlog` card is committed with one update row. -/
theorem c8_idempotent_noop_amended_witness :
    ((validateTransition TRANSITION_RULES_V2 (mkTask (some "a1") "Ongoing")
      "Ongoing" agentA1).allowedB = false) ∧
    ((transitionHandler TRANSITION_RULES_V1 (mkState (some "a1") "Backlog")
        (some "Backlog") agentA1).2 = TransitionResp.ok "c1" "Backlog" "Backlog") ∧
    ((putHandlerV2 (mkState (some "a1") "Backlog")
        { emptyPutBody with status := some "Backlog" } agentA1).2 = PutResp.ok) := by
  refine ⟨?_, ?_, ?_⟩
  · exact (c8_idempotent_noop_amended (mkState (some "a1") "Ongoing")
      (mkTask (some "a1") "Ongoing") agentA1 rfl).1 TRANSITION_RULES_V2
      (Or.inr rfl) (by decide)
  · exact ((c8_idempotent_noop_amended (mkState (some "a1") "Backlog")
      (mkTask (some "a1") "Backlog") agentA1 rfl).2.1 TRANSITION_RULES_V1
      rfl (by decide) (Or.inl (by decide))).1
  · exact ((c8_idempotent_noop_amended (mkState (some "a1") "Backlog")
      (mkTask (some "a1") "Backlog") agentA1 rfl).2.2 TRANSITION_RULES_V2
      putStoredV2 { emptyPutBody with status := some "Backlog" } rfl rfl).1

/-- C9 counterexample: the agentId fallback chain is
`x-agent-id || x-owner-password || 'unknown'`. With a valid API key, no
`x-agent-id`, and a *wrong* `x-owner-password` of "wrong", the derived
agentId is "wrong" — not the claimed default "unknown" — so the default
DOES depend on another header. -/
theorem c9_agent_identity_counterexample :
    (getAgentIdentity "secret"
      { x_owner_password := some "wrong", x_api_key := some "k",
        x_agent_id := none, x_agent_role := some "agent" }).agentId = "wrong" ∧
    ("wrong" : String) ≠ "unknown" := by
  decide

/-- C9 (amended): for a request not authenticated as the owner (password
header absent, empty, or not the secret), the derived identity is:
agentId = the `x-agent-id` header when truthy, otherwise the
`x-owner-password` header value when present and truthy, otherwise
"unknown"; agentRole = the `x-agent-role` header when truthy, otherwise
"member". -/
theorem c9_agent_identity_amended (pw : String) (h : Headers)
    (hnp : ¬ (jsTruthy h.x_owner_password = true ∧ h.x_owner_password = some pw)) :
    (∀ i : String, h.x_agent_id = some i → i ≠ "" →
      (getAgentIdentity pw h).agentId = i) ∧
    (h.x_agent_id = none → ∀ w : String, h.x_owner_password = some w → w ≠ "" →
      (getAgentIdentity pw h).agentId = w) ∧
    (h.x_agent_id = none → h.x_owner_password = none →
      (getAgentIdentity pw h).agentId = "unknown") ∧
    (h.x_agent_role = none → (getAgentIdentity pw h).agentRole = "member") ∧
    (∀ ro : String, h.x_agent_role = some ro → ro ≠ "" →
      (getAgentIdentity pw h).agentRole = ro) := by
  have hg : getAgentIdentity pw h =
      { agentId := jsStr h.x_agent_id (jsStr h.x_owner_password "unknown"),
        agentRole := jsStr h.x_agent_role "member" } := by
    rw [getAgentIdentity, if_neg hnp]
  refine ⟨?_, ?_, ?_, ?_, ?_⟩
  · intro i hi hine
    rw [hg]
    simp [jsStr, hi, hine]
  · intro hid w hw hwne
    rw [hg]
    simp [jsStr, hid, hw, hwne]
  · intro hid hwp
    rw [hg]
    simp [jsStr, hid, hwp]
  · intro hro
    rw [hg]
    simp [jsStr, hro]
  · intro ro hro hrone
    rw [hg]
    simp [jsStr, hro, hrone]

/-- Witness for C9 (amended) with concrete secrets and headers: the wrong
password header leaks into agentId; with no password header agentId defaults
to "unknown" and agentRole to "member"; a provided `x-agent-id` and
`x-agent-role` win. -/
theorem c9_agent_identity_amended_witness :
    (getAgentIdentity "secret"
      { x_owner_password := some "wrong", x_api_key := some "k",
        x_agent_id := none, x_agent_role := some "agent" }).agentId = "wrong" ∧
    (getAgentIdentity "secret"
      { x_owner_password := none, x_api_key := some "k",
        x_agent_id := none, x_agent_role := none }).agentId = "unknown" ∧
    (getAgentIdentity "secret"
      { x_owner_password := none, x_api_key := some "k",
        x_agent_id := none, x_agent_role := none }).agentRole = "member" ∧
    (getAgentIdentity "secret"
      { x_owner_password := none, x_api_key := some "k",
        x_agent_id := some "a1", x_agent_role := some "agent" }).agentId = "a1" ∧
    (getAgentIdentity "secret"
      { x_owner_password := none, x_api_key := some "k",
        x_agent_id := some "a1", x_agent_role := some "agent" }).agentRole = "agent" := by
  refine ⟨?_, ?_, ?_, ?_, ?_⟩
  · exact (c9_agent_identity_amended "secret"
      { x_owner_password := some "wrong", x_api_key := some "k",
        x_agent_id := none, x_agent_role := some "agent" } (by decide)).2.1
      rfl "wrong" rfl (by decide)
  · exact (c9_agent_identity_amended "secret"
      { x_owner_password := none, x_api_key := some "k",
        x_agent_id := none, x_agent_role := none } (by decide)).2.2.1 rfl rfl
  · exact (c9_agent_identity_amended "secret"
      { x_owner_password := none, x_api_key := some "k",
        x_agent_id := none, x_agent_role := none } (by decide)).2.2.2.1 rfl
  · exact (c9_agent_identity_amended "secret"
      { x_owner_password := none, x_api_key := some "k",
        x_agent_id := some "a1", x_agent_role := some "agent" } (by decide)).1
      "a1" rfl (by decide)
  · exact (c9_agent_identity_amended "secret"
      { x_owner_password := none, x_api_key := some "k",
        x_agent_id := some "a1", x_agent_role := some "agent" } (by decide)).2.2.2.2
      "agent" rfl (by decide)

theorem putHandlerWith_ok_card (rules : String → Option Rule)
    (stored : PutBody → Task → Nat → Task) (s : ServerState) (body : PutBody)
    (a : AgentInfo) (t : Task) (hc : s.card = some t)
    (hok : (putHandlerWith rules stored s body a).2 = PutResp.ok) :
    (putHandlerWith rules stored s body a).1.card = some (stored body t s.nowTime) := by
  by_cases hg : putAssignmentDenied body t a = true
  · rw [putHandlerWith_gate rules stored s body a t hc hg] at hok
    simp at hok
  · cases hbs : body.status with
    | none =>
      rw [putHandlerWith_noStatusChange rules stored s body a t hc
        (bool_eq_false_of_not_true hg) (Or.inl hbs)]
    | some st =>
      by_cases hne : st = t.status
      · rw [putHandlerWith_noStatusChange rules stored s body a t hc
          (bool_eq_false_of_not_true hg) (Or.inr (by rw [hbs, hne]))]
      · cases hval : validateTransition rules t st a with
        | deny r =>
          rw [putHandlerWith_statusDeny rules stored s body a t st r hc
            (bool_eq_false_of_not_true hg) hbs hne hval] at hok
          simp at hok
        | allow =>
          rw [putHandlerWith_statusAllow rules stored s body a t st hc
            (bool_eq_false_of_not_true hg) hbs hne hval]

/-- C10: in variant 1's `PUT /api/tasks/:id`, the UPDATE binds the
owner_agent value chain to the `assignee` column and the assignee value
chain to the `owner_agent` column: after every successful PUT the stored
`assignee` is `owner_agent || task.owner_agent || ''` and the stored
`owner_agent` is `assignee || task.assignee || ''` — and a PUT carrying
neither field still swaps the two stored fields. -/
theorem c10_put_v1_swapped_binding
    (s : ServerState) (t : Task) (body : PutBody) (a : AgentInfo)
    (hc : s.card = some t) :
    ((putHandlerV1 s body a).2 = PutResp.ok →
      (putHandlerV1 s body a).1.card = some (putStoredV1 body t s.nowTime) ∧
      (putStoredV1 body t s.nowTime).assignee =
        some ((jsSel body.owner_agent t.owner_agent).getD "") ∧
      (putStoredV1 body t s.nowTime).owner_agent =
        some ((jsSel body.assignee t.assignee).getD "")) ∧
    (∀ x y : String, t.assignee = some x → x ≠ "" → t.owner_agent = some y →
      y ≠ "" → body = emptyPutBody →
      (putHandlerV1 s body a).2 = PutResp.ok ∧
      (putHandlerV1 s body a).1.card.map Task.assignee = some (some y) ∧
      (putHandlerV1 s body a).1.card.map Task.owner_agent = some (some x)) := by
  constructor
  · intro hok
    exact ⟨putHandlerWith_ok_card TRANSITION_RULES_V1 putStoredV1 s body a t hc hok,
      rfl, rfl⟩
  · intro x y hx hxne hy hyne hbody
    subst hbody
    have hg : putAssignmentDenied emptyPutBody t a = false := by
      simp [putAssignmentDenied, emptyPutBody]
    have hred := putHandlerWith_noStatusChange TRANSITION_RULES_V1 putStoredV1 s
      emptyPutBody a t hc hg (Or.inl rfl)
    rw [putHandlerV1, hred]
    refine ⟨rfl, ?_, ?_⟩ <;>
      simp [putStoredV1, emptyPutBody, jsSel, jsTruthy, hx, hxne, hy, hyne]

/-- A concrete card carrying both legacy `assignee` ("bob") and
`owner_agent` ("alice"), used by the C10 witness. -/
def cardSwap : Task :=
  { mkTask (some "alice") "To Do" with assignee := some "bob" }

def stateSwap : ServerState :=
  { card := some cardSwap, log := [], nowTime := 5 }

/-- Witness for C10 at a concrete card with `assignee = "bob"` and
`owner_agent = "alice"`: an empty PUT succeeds and afterwards the stored
`assignee` is "alice" and the stored `owner_agent` is "bob". -/
theorem c10_put_v1_swapped_binding_witness :
    (putHandlerV1 stateSwap emptyPutBody agentA1).2 = PutResp.ok ∧
    (putHandlerV1 stateSwap emptyPutBody agentA1).1.card.map Task.assignee =
      some (some "alice") ∧
    (putHandlerV1 stateSwap emptyPutBody agentA1).1.card.map Task.owner_agent =
      some (some "bob") := by
  exact (c10_put_v1_swapped_binding stateSwap cardSwap emptyPutBody agentA1 rfl).2
    "bob" "alice" rfl (by decide) rfl (by decide) rfl
